import Mathlib

/-!
Verification of the zustand-api-client repository: a shallow embedding of
the generic Zustand store factory (`src/zustand.ts`) and of the axios API
wrapper (`src/api.ts`, modelled from the spec where the implementation is
absent from the sources), together with theorems settling the behavioural
claims about them.

Store actions are embedded as trace-producing functions: each action,
given the outcome of the one network call it awaits (an `Except` value
standing for a resolved or rejected promise), returns the ordered list of
`set` and network-call events the TypeScript code performs.  The resulting
store state is obtained by folding the `set` patches over the pre-call
state, exactly as Zustand merges partial updates.
-/

namespace ZustandApiClient

/-- A JavaScript `Error` object, reduced to the only observable the code
uses: its message. -/
structure JsError where
  message : String
deriving Repr, DecidableEq

/-- A JavaScript value as it appears in a `catch (error)` clause: either an
`Error` instance, or any other value, carried by its `String(...)`
representation. -/
inductive JsValue where
  | errObj (e : JsError)
  | nonError (stringRep : String)
deriving Repr, DecidableEq

/-- `error instanceof Error ? error : new Error(String(error))`
(every catch clause in `src/zustand.ts`). -/
def normalizeError : JsValue → JsError
  | .errObj e => e
  | .nonError s => ⟨s⟩

/-- Query parameters (`Record<string, any>` in the source); `[]` models the
empty object `{}` used as the default. -/
abbrev Params := List (String × String)

/-- Pagination metadata (`Meta` in `src/zustand.ts`). -/
structure Meta where
  currentPage : Int
  totalPages : Int
  totalCount : Int
deriving Repr, DecidableEq

/-- The base store state (`GenericState<T>` in `src/zustand.ts`). -/
structure GenericState (T : Type) where
  items : List T
  item : Option T
  loading : Bool
  error : Option JsError
  meta : Meta
deriving Repr, DecidableEq

/-- The initial state of a freshly created store (`src/zustand.ts`,
lines 60-68). -/
def initialState (T : Type) : GenericState T :=
  { items := [], item := none, loading := false, error := none
  , meta := { currentPage := 1, totalPages := 1, totalCount := 0 } }

/-- The list response shape `fetchAll` reads (`ApiResponse` in
`src/zustand.ts`): every field optional. -/
structure ListResp (T : Type) where
  objects : Option (List T) := none
  current_page : Option Int := none
  num_pages : Option Int := none
  total_count : Option Int := none
deriving Repr, DecidableEq

/-- JavaScript `x || fb` for an optional number `x`: the fallback is taken
when the field is absent (`undefined`) or falsy (`0`). -/
def jsOrInt (v : Option Int) (fb : Int) : Int :=
  match v with
  | some n => if n = 0 then fb else n
  | none => fb

/-- The `meta` object computed by `fetchAll` on success (`src/zustand.ts`,
lines 83-87):
`currentPage: data.current_page || 1`,
`totalPages: data.num_pages || 1`,
`totalCount: data.total_count || (data.objects ? data.objects.length : 0)`.
(An array is always truthy in JavaScript, so the ternary on `data.objects`
tests presence only.) -/
def metaOf {T : Type} (data : ListResp T) : Meta :=
  { currentPage := jsOrInt data.current_page 1
  , totalPages := jsOrInt data.num_pages 1
  , totalCount :=
      jsOrInt data.total_count
        (match data.objects with
         | some l => (l.length : Int)
         | none => 0) }

/-- A partial state update, as passed to Zustand's `set`: absent fields are
left unchanged by the merge. -/
structure SetPatch (T : Type) where
  items : Option (List T) := none
  item : Option (Option T) := none
  loading : Option Bool := none
  error : Option (Option JsError) := none
  meta : Option Meta := none
deriving Repr, DecidableEq

/-- Zustand's shallow merge of a partial update into the current state. -/
def applyPatch {T : Type} (s : GenericState T) (p : SetPatch T) : GenericState T :=
  { items := p.items.getD s.items
  , item := p.item.getD s.item
  , loading := p.loading.getD s.loading
  , error := p.error.getD s.error
  , meta := p.meta.getD s.meta }

/-- A network call made through `apiClient` by a store action.  `get` is
the two-argument list request, `getOne` the one-argument by-id request
(both go through `apiClient.get` in the source). -/
inductive CallEv (P : Type) where
  | get (path : String) (params : Params)
  | getOne (path : String)
  | post (path : String) (body : P)
  | put (path : String) (body : P)
  | del (path : String)
deriving Repr, DecidableEq

/-- Whether a call event is a call to `apiClient.get` (either arity). -/
def CallEv.isGet {P : Type} : CallEv P → Bool
  | .get _ _ => true
  | .getOne _ => true
  | _ => false

/-- One observable step of a store action: a `set(...)` of a partial state
update, or an awaited network call (the call starts and settles at this
point of the trace). -/
inductive Ev (T P : Type) where
  | set (p : SetPatch T)
  | call (c : CallEv P)
deriving Repr, DecidableEq

/-- Whether an event is a network call. -/
def Ev.isCall {T P : Type} : Ev T P → Bool
  | .call _ => true
  | .set _ => false

/-- The state reached by performing a trace of events from `s`: each `set`
merges its patch, network calls do not touch the store state. -/
def runTrace {T P : Type} (s : GenericState T) : List (Ev T P) → GenericState T
  | [] => s
  | .set p :: rest => runTrace (applyPatch s p) rest
  | .call _ :: rest => runTrace s rest

/-- The network calls of a trace, in order. -/
def callsOf {T P : Type} : List (Ev T P) → List (CallEv P)
  | [] => []
  | .set _ :: rest => callsOf rest
  | .call c :: rest => c :: callsOf rest

/-- The events an action performs synchronously, before its first awaited
network call. -/
def beforeFirstCall {T P : Type} (tr : List (Ev T P)) : List (Ev T P) :=
  tr.takeWhile (fun e => !e.isCall)

/-- `set({ loading: true, error: null })`: the synchronous update every
action performs before its network call. -/
def startPatch (T : Type) : SetPatch T :=
  { loading := some true, error := some none }

/-- `set({ error: ..., loading: false })`: the update every action performs
in its catch clause. -/
def failPatch (T : Type) (v : JsValue) : SetPatch T :=
  { error := some (some (normalizeError v)), loading := some false }

/-- `set({ loading: false })`: performed by create/update/remove on success
before the refetch. -/
def clearLoading (T : Type) : SetPatch T :=
  { loading := some false }

/-- The update `fetchAll` performs on success (`src/zustand.ts`,
lines 81-89): `items: data.objects || []` ( `[]` only when the field is
absent, since an array is always truthy), the `meta` fallbacks, and
`loading: false`, in one `set`. -/
def fetchAllOkPatch {T : Type} (data : ListResp T) : SetPatch T :=
  { items := some (data.objects.getD [])
  , meta := some (metaOf data)
  , loading := some false }

/-- `fetchAll(params = {})` (`src/zustand.ts`, lines 71-93), as the trace
of its effects given the outcome `result` of `apiClient.get(endpoint,
params)`. -/
def fetchAll {T P : Type} (endpoint : String) (params : Params)
    (result : Except JsValue (ListResp T)) : List (Ev T P) :=
  Ev.set (startPatch T) :: Ev.call (CallEv.get endpoint params) ::
    match result with
    | .ok data => [Ev.set (fetchAllOkPatch data)]
    | .error v => [Ev.set (failPatch T v)]

/-- `fetchOne(id)` (`src/zustand.ts`, lines 95-103): success stores the
response in `item`; the catch clause sets only `error` and `loading`. -/
def fetchOne {T P : Type} (endpoint : String) (id : String)
    (result : Except JsValue T) : List (Ev T P) :=
  Ev.set (startPatch T) :: Ev.call (CallEv.getOne (endpoint ++ "/" ++ id)) ::
    match result with
    | .ok d => [Ev.set { item := some (some d), loading := some false }]
    | .error v => [Ev.set (failPatch T v)]

/-- `create(payload)` (`src/zustand.ts`, lines 105-117): on post success,
`set({ loading: false })`, then `await get().fetchAll()` (whose own trace,
with empty params and outcome `refetch`, is inlined), then the created
resource is returned; on post failure only the catch clause runs and
`undefined` is returned. -/
def create {T P : Type} (endpoint : String) (payload : P)
    (postResult : Except JsValue T) (refetch : Except JsValue (ListResp T)) :
    List (Ev T P) × Option T :=
  match postResult with
  | .ok d =>
      (Ev.set (startPatch T) :: Ev.call (CallEv.post endpoint payload) ::
        Ev.set (clearLoading T) :: fetchAll endpoint [] refetch, some d)
  | .error v =>
      ([Ev.set (startPatch T), Ev.call (CallEv.post endpoint payload),
        Ev.set (failPatch T v)], none)

/-- `update(id, payload)` (`src/zustand.ts`, lines 119-131): same pattern
as `create`, through `apiClient.put(endpoint/id, payload)`. -/
def update {T P : Type} (endpoint : String) (id : String) (payload : P)
    (putResult : Except JsValue T) (refetch : Except JsValue (ListResp T)) :
    List (Ev T P) × Option T :=
  match putResult with
  | .ok d =>
      (Ev.set (startPatch T) ::
        Ev.call (CallEv.put (endpoint ++ "/" ++ id) payload) ::
        Ev.set (clearLoading T) :: fetchAll endpoint [] refetch, some d)
  | .error v =>
      ([Ev.set (startPatch T),
        Ev.call (CallEv.put (endpoint ++ "/" ++ id) payload),
        Ev.set (failPatch T v)], none)

/-- `remove(id)` (`src/zustand.ts`, lines 133-142): delete, then on success
`set({ loading: false })` and the refetch; nothing is returned. -/
def remove {T P : Type} (endpoint : String) (id : String)
    (delResult : Except JsValue Unit) (refetch : Except JsValue (ListResp T)) :
    List (Ev T P) :=
  Ev.set (startPatch T) :: Ev.call (CallEv.del (endpoint ++ "/" ++ id)) ::
    match delResult with
    | .ok _ => Ev.set (clearLoading T) :: fetchAll endpoint [] refetch
    | .error v => [Ev.set (failPatch T v)]

/-- The five base store actions. -/
inductive ActionName where
  | fetchAll | fetchOne | create | update | remove
deriving Repr, DecidableEq

/-- The factory options recognized by the action-selecting
`createGenericStore` (its test passes `{ actions: [...] }`). -/
structure StoreOptions where
  actions : Option (List ActionName) := none

/-- The store object produced by the factory: the base state plus one slot
per base action, `none` when the action is absent from the produced state
(`undefined` in JavaScript).  Each present slot holds the corresponding
action translated from `src/zustand.ts`, bound to the store's endpoint. -/
structure StoreObj (T P : Type) where
  state : GenericState T
  fetchAllAct : Option (Params → Except JsValue (ListResp T) → List (Ev T P))
  fetchOneAct : Option (String → Except JsValue T → List (Ev T P))
  createAct :
    Option (P → Except JsValue T → Except JsValue (ListResp T) → List (Ev T P) × Option T)
  updateAct :
    Option (String → P → Except JsValue T → Except JsValue (ListResp T) →
      List (Ev T P) × Option T)
  removeAct :
    Option (String → Except JsValue Unit → Except JsValue (ListResp T) → List (Ev T P))

/-- Modelled from the spec: whether an action name is selected by an
`actions` option — "set of action names ... to include; if omitted, all
five are included". -/
def selects (acts : Option (List ActionName)) (a : ActionName) : Bool :=
  match acts with
  | none => true
  | some l => l.contains a

/-- Modelled from the spec: the variant of `createGenericStore` that takes
an `options.actions` subset is not among the source files (only its test
is).  Per the spec, an action is included in the produced state exactly
when selected — all five when the field is omitted — and an unselected
action is entirely absent (`none` here, `undefined` in JavaScript) rather
than a no-op.  The action functions themselves are the ones translated
from `src/zustand.ts` above, bound to the endpoint. -/
def createGenericStore (T P : Type) (endpoint : String) (opts : StoreOptions) :
    StoreObj T P :=
  { state := initialState T
  , fetchAllAct :=
      if selects opts.actions .fetchAll then some (fun ps r => fetchAll endpoint ps r)
      else none
  , fetchOneAct :=
      if selects opts.actions .fetchOne then some (fun id r => fetchOne endpoint id r)
      else none
  , createAct :=
      if selects opts.actions .create then some (fun p r rf => create endpoint p r rf)
      else none
  , updateAct :=
      if selects opts.actions .update then some (fun id p r rf => update endpoint id p r rf)
      else none
  , removeAct :=
      if selects opts.actions .remove then some (fun id r rf => remove endpoint id r rf)
      else none }

/-- Whether the produced state contains the named action (its slot is not
`none`). -/
def StoreObj.hasAction {T P : Type} (st : StoreObj T P) : ActionName → Bool
  | .fetchAll => st.fetchAllAct.isSome
  | .fetchOne => st.fetchOneAct.isSome
  | .create => st.createAct.isSome
  | .update => st.updateAct.isSome
  | .remove => st.removeAct.isSome

/-- A server response carried by a transport failure: status plus parsed
body. -/
structure ServerResponse (B : Type) where
  status : Int
  data : B
deriving Repr, DecidableEq

/-- A transport-level (axios) failure: an optional server response, a flag
recording whether the request was sent (`error.request`), and the
failure's own message. -/
structure AxiosFailure (B : Type) where
  response : Option (ServerResponse B) := none
  request : Bool := false
  message : String := ""
deriving Repr, DecidableEq

/-- The normalized error a wrapper operation rejects with. -/
inductive ApiClientError (B : Type) where
  | notInitialized (message : String)
  | apiError (payload : B)
  | networkError (message : String)
  | requestSetupError (message : String)
deriving Repr, DecidableEq

/-- The message of the not-initialized rejection (from the wrapper's
test). -/
def notInitializedMessage : String :=
  "apiClient not initialized. Call initApiClient(config) first."

/-- The request descriptor a wrapper verb hands to the transport. -/
structure AxiosRequest (P : Type) where
  method : String
  url : String
  params : Option Params := none
  data : Option P := none
  multipart : Bool := false
deriving Repr, DecidableEq

/-- A configured transport: maps a request to a parsed body or a
transport failure. -/
abbrev Transport (P B : Type) := AxiosRequest P → Except (AxiosFailure B) B

/-- Modelled from the spec: the wrapper's error normalization
(`src/api.ts` is not among the source files; only its test is).  A failure
carrying a server response becomes `ApiError` with the response body as
payload; else, if the request was sent but no response arrived,
`NetworkError` with the fixed message; else `RequestSetupError` quoting the
original message. -/
def handleFailure {B : Type} (e : AxiosFailure B) : ApiClientError B :=
  match e.response with
  | some r => .apiError r.data
  | none =>
      if e.request then .networkError "No response from server"
      else .requestSetupError ("Request failed: " ++ e.message)

/-- Modelled from the spec: the single request path every wrapper verb
funnels through.  If the transport singleton is absent the call fails
immediately with `NotInitialized` and no network request is made;
otherwise exactly one request is issued and a failure is normalized by
`handleFailure`.  Besides the outcome, the list of network requests
actually performed is returned. -/
def apiRequest (P B : Type) (inst : Option (Transport P B)) (req : AxiosRequest P) :
    Except (ApiClientError B) B × List (AxiosRequest P) :=
  match inst with
  | none => (.error (.notInitialized notInitializedMessage), [])
  | some transport =>
      match transport req with
      | .ok b => (.ok b, [req])
      | .error e => (.error (handleFailure e), [req])

/-- Modelled from the spec: `apiClient.get(path, params = {})`. -/
def apiGet (P B : Type) (inst : Option (Transport P B)) (path : String)
    (params : Params) : Except (ApiClientError B) B × List (AxiosRequest P) :=
  apiRequest P B inst { method := "get", url := path, params := some params }

/-- Modelled from the spec: `apiClient.post(path, body)`. -/
def apiPost (P B : Type) (inst : Option (Transport P B)) (path : String)
    (body : P) : Except (ApiClientError B) B × List (AxiosRequest P) :=
  apiRequest P B inst { method := "post", url := path, data := some body }

/-- Modelled from the spec: `apiClient.put(path, body)`. -/
def apiPut (P B : Type) (inst : Option (Transport P B)) (path : String)
    (body : P) : Except (ApiClientError B) B × List (AxiosRequest P) :=
  apiRequest P B inst { method := "put", url := path, data := some body }

/-- Modelled from the spec: `apiClient.delete(path, params = {})`. -/
def apiDelete (P B : Type) (inst : Option (Transport P B)) (path : String)
    (params : Params) : Except (ApiClientError B) B × List (AxiosRequest P) :=
  apiRequest P B inst { method := "delete", url := path, params := some params }

/-- Modelled from the spec: `apiClient.postFile(path, formData)` — a
multipart post through the same transport and normalization path. -/
def apiPostFile (P B : Type) (inst : Option (Transport P B)) (path : String)
    (body : P) : Except (ApiClientError B) B × List (AxiosRequest P) :=
  apiRequest P B inst
    { method := "post", url := path, data := some body, multipart := true }

/-- C1: for every endpoint and every `actions` selection (a list over the
closed set of five action names, hence always a subset of it), the store
produced by the factory contains an action exactly when it is selected —
an unselected action's slot is entirely absent (`none`), not a no-op — and
when the `actions` field is omitted all five actions are present. -/
theorem c1_action_selection (T P : Type) (e : String) (l : List ActionName)
    (a : ActionName) :
    ((createGenericStore T P e { actions := some l }).hasAction a = l.contains a)
    ∧ ((createGenericStore T P e { actions := none }).hasAction a = true) := by
  refine ⟨?_, ?_⟩ <;> cases a <;>
    simp only [createGenericStore, StoreObj.hasAction, selects] <;>
    split <;> simp_all

/-- The concrete `fetchAll` response refuting C2 as stated: the paging
field `total_count` is present but zero, alongside a one-element list. -/
def respZeroCount : ListResp Nat :=
  { objects := some [7], total_count := some 0 }

/-- The `meta` computation as C2's sentence states it: each fallback keyed
on absence of the field — current page defaults to 1, total pages to 1,
total count to the fetched list's length only when the field is absent. -/
def metaOfClaim {T : Type} (data : ListResp T) : Meta :=
  { currentPage := data.current_page.getD 1
  , totalPages := data.num_pages.getD 1
  , totalCount := data.total_count.getD ((data.objects.getD []).length : Int) }

/-- C2 as stated is false: on the response `{objects: [7], total_count: 0}`
the code stores `totalCount = 1` (the list's length, because `0` is falsy
under `||`), while the claim's absence-keyed fallback yields the present
value `0`. -/
theorem c2_counterexample :
    (runTrace (initialState Nat)
        (fetchAll "/e" [] (.ok respZeroCount) : List (Ev Nat Unit))).meta
      ≠ metaOfClaim respZeroCount := by
  decide

/-- C2 amended: on success `fetchAll` sets `items` to the response's list
field (empty when absent), clears `error`, resets `loading`, and sets
`meta` with fallbacks keyed on JavaScript truthiness — each paging field
falls back when absent or zero: current page to 1, total pages to 1, total
count to the fetched list's length. -/
theorem c2_fetchAll_success_meta (T P : Type) (e : String) (ps : Params)
    (resp : ListResp T) (s : GenericState T) :
    runTrace s (fetchAll e ps (.ok resp) : List (Ev T P)) =
      { items := resp.objects.getD []
      , item := s.item
      , loading := false
      , error := none
      , meta :=
          { currentPage :=
              match resp.current_page with
              | some n => if n = 0 then 1 else n
              | none => 1
          , totalPages :=
              match resp.num_pages with
              | some n => if n = 0 then 1 else n
              | none => 1
          , totalCount :=
              match resp.total_count with
              | some n =>
                  if n = 0 then
                    match resp.objects with
                    | some l => (l.length : Int)
                    | none => 0
                  else n
              | none =>
                  match resp.objects with
                  | some l => (l.length : Int)
                  | none => 0 } } := by
  rfl

/-- C3: `create(payload)` posts exactly once with `(endpoint, payload)`;
on post success its network calls are exactly that post followed by the
one parameterless refetch (`get(endpoint, {})`), it returns the created
resource, and `loading` ends false; on post failure it performs no further
network call (in particular zero `get` calls), sets `error` to the
normalized failure, resets `loading`, and returns an empty result. -/
theorem c3_create (T P : Type) (e : String) (p : P) (d : T) (v : JsValue)
    (rf : Except JsValue (ListResp T)) (s : GenericState T) :
    (callsOf (create e p (.ok d) rf).1 = [CallEv.post e p, CallEv.get e []]
      ∧ (create e p (.ok d) rf).2 = some d
      ∧ (runTrace s (create e p (.ok d) rf).1).loading = false)
    ∧ (callsOf (create e p (.error v) rf).1 = [CallEv.post e p]
      ∧ (create e p (.error v) rf).2 = none
      ∧ (runTrace s (create e p (.error v) rf).1).error = some (normalizeError v)
      ∧ (runTrace s (create e p (.error v) rf).1).loading = false) := by
  cases rf <;> exact ⟨⟨rfl, rfl, rfl⟩, rfl, rfl, rfl, rfl⟩

/-- A pre-call state holding a fetched item, refuting C4 as stated. -/
def stateWithItem : GenericState Nat :=
  { initialState Nat with item := some 5 }

/-- C4 as stated is false: from a state with `item = some 5`, a failing
`fetchOne` leaves `item` untouched (still `some 5`), because the catch
clause sets only `error` and `loading` — it does not set `item` to null. -/
theorem c4_counterexample :
    (runTrace stateWithItem
        (fetchOne "/e" "1" (.error (.errObj ⟨"boom"⟩)) : List (Ev Nat Unit))).item
      ≠ none := by
  decide

/-- C4 amended: `fetchOne(id)` calls the wrapper's get on the
`endpoint/id` path; on success it sets `item` to the response, clears
`error` and resets `loading`; on failure it sets `error` to the normalized
failure and resets `loading`, leaving `item` (and every other field)
unchanged — it does not write `item = null`. -/
theorem c4_fetchOne (T P : Type) (e id : String) (s : GenericState T) :
    (∀ r : Except JsValue T,
      callsOf (fetchOne e id r : List (Ev T P)) = [CallEv.getOne (e ++ "/" ++ id)])
    ∧ (∀ d : T,
      runTrace s (fetchOne e id (.ok d) : List (Ev T P))
        = { s with item := some d, loading := false, error := none })
    ∧ (∀ v : JsValue,
      runTrace s (fetchOne e id (.error v) : List (Ev T P))
        = { s with error := some (normalizeError v), loading := false }) := by
  refine ⟨fun r => ?_, fun d => rfl, fun v => rfl⟩
  cases r <;> rfl

/-- C5: every store action catches a wrapper failure instead of letting it
propagate (in this embedding each action is a total function on the
rejected value, so it always completes with a state and, for
create/update, a return value): for every rejected value the final state
holds the normalized failure in `error` with `loading` reset to false,
create and update return an empty result (`none`), and normalization
stores an `Error` instance as-is while wrapping any other value into one
preserving its string representation. -/
theorem c5_failure_normalization (T P : Type) (e id : String) (p : P)
    (ps : Params) (v : JsValue) (rf : Except JsValue (ListResp T))
    (s : GenericState T) :
    (runTrace s (fetchAll e ps (.error v) : List (Ev T P))).error
        = some (normalizeError v)
    ∧ (runTrace s (fetchAll e ps (.error v) : List (Ev T P))).loading = false
    ∧ (runTrace s (fetchOne e id (.error v) : List (Ev T P))).error
        = some (normalizeError v)
    ∧ (runTrace s (fetchOne e id (.error v) : List (Ev T P))).loading = false
    ∧ (runTrace s (create e p (.error v) rf).1).error = some (normalizeError v)
    ∧ (runTrace s (create e p (.error v) rf).1).loading = false
    ∧ (create e p (.error v) rf).2 = none
    ∧ (runTrace s (update e id p (.error v) rf).1).error = some (normalizeError v)
    ∧ (runTrace s (update e id p (.error v) rf).1).loading = false
    ∧ (update e id p (.error v) rf).2 = none
    ∧ (runTrace s (remove e id (.error v) rf : List (Ev T P))).error
        = some (normalizeError v)
    ∧ (runTrace s (remove e id (.error v) rf : List (Ev T P))).loading = false
    ∧ (∀ str : String, normalizeError (.nonError str) = ⟨str⟩)
    ∧ (∀ err : JsError, normalizeError (.errObj err) = err) :=
  ⟨rfl, rfl, rfl, rfl, rfl, rfl, rfl, rfl, rfl, rfl, rfl, rfl,
    fun _ => rfl, fun _ => rfl⟩

/-- C6: a failing `fetchAll` writes only `error` and `loading`: the state
after the call is the pre-call state with exactly those two fields
replaced, so `items` and `meta` (and `item`) are unchanged. -/
theorem c6_fetchAll_failure_frame (T P : Type) (e : String) (ps : Params)
    (v : JsValue) (s : GenericState T) :
    runTrace s (fetchAll e ps (.error v) : List (Ev T P))
      = { s with error := some (normalizeError v), loading := false } :=
  rfl

/-- C7: within each single action invocation, the synchronous part before
the first network call is exactly the one `set({loading: true, error:
null})`; after the call settles, `loading` is false on both paths for all
five actions; for the mutating actions the success trace is the post/put/
delete phase, then `set({loading: false})`, then (strictly afterwards) the
parameterless refetch, while on the failure path the primary call is the
only network call (no refetch). -/
theorem c7_ordering (T P : Type) (e id : String) (p : P) (ps : Params)
    (rl : Except JsValue (ListResp T)) (ro : Except JsValue T)
    (rd : Except JsValue Unit) (rf : Except JsValue (ListResp T)) (d : T)
    (u : Unit) (v : JsValue) (s : GenericState T) :
    beforeFirstCall (fetchAll e ps rl : List (Ev T P)) = [Ev.set (startPatch T)]
    ∧ beforeFirstCall (fetchOne e id ro : List (Ev T P)) = [Ev.set (startPatch T)]
    ∧ beforeFirstCall (create e p ro rf).1 = [Ev.set (startPatch T)]
    ∧ beforeFirstCall (update e id p ro rf).1 = [Ev.set (startPatch T)]
    ∧ beforeFirstCall (remove e id rd rf : List (Ev T P)) = [Ev.set (startPatch T)]
    ∧ (runTrace s (fetchAll e ps rl : List (Ev T P))).loading = false
    ∧ (runTrace s (fetchOne e id ro : List (Ev T P))).loading = false
    ∧ (runTrace s (create e p ro rf).1).loading = false
    ∧ (runTrace s (update e id p ro rf).1).loading = false
    ∧ (runTrace s (remove e id rd rf : List (Ev T P))).loading = false
    ∧ (create e p (.ok d) rf).1
        = Ev.set (startPatch T) :: Ev.call (CallEv.post e p) ::
            Ev.set (clearLoading T) :: fetchAll e [] rf
    ∧ (update e id p (.ok d) rf).1
        = Ev.set (startPatch T) :: Ev.call (CallEv.put (e ++ "/" ++ id) p) ::
            Ev.set (clearLoading T) :: fetchAll e [] rf
    ∧ (remove e id (.ok u) rf : List (Ev T P))
        = Ev.set (startPatch T) :: Ev.call (CallEv.del (e ++ "/" ++ id)) ::
            Ev.set (clearLoading T) :: fetchAll e [] rf
    ∧ callsOf (create e p (.error v) rf).1 = [CallEv.post e p]
    ∧ callsOf (update e id p (.error v) rf).1 = [CallEv.put (e ++ "/" ++ id) p]
    ∧ callsOf (remove e id (.error v) rf : List (Ev T P))
        = [CallEv.del (e ++ "/" ++ id)] := by
  cases rl <;> cases ro <;> cases rd <;> cases rf <;>
    exact ⟨rfl, rfl, rfl, rfl, rfl, rfl, rfl, rfl, rfl, rfl, rfl, rfl, rfl,
      rfl, rfl, rfl⟩

/-- C8: each wrapper operation (get, post, put, delete, postFile), when
called before any initialization (absent transport singleton), fails with
`NotInitialized` carrying the message that names the missing
`initApiClient` call, and performs zero network requests. -/
theorem c8_not_initialized (P B : Type) (path : String) (ps : Params)
    (body : P) :
    apiGet P B none path ps
        = (.error (.notInitialized notInitializedMessage), [])
    ∧ apiPost P B none path body
        = (.error (.notInitialized notInitializedMessage), [])
    ∧ apiPut P B none path body
        = (.error (.notInitialized notInitializedMessage), [])
    ∧ apiDelete P B none path ps
        = (.error (.notInitialized notInitializedMessage), [])
    ∧ apiPostFile P B none path body
        = (.error (.notInitialized notInitializedMessage), [])
    ∧ notInitializedMessage
        = "apiClient not initialized. Call initApiClient(config) first." :=
  ⟨rfl, rfl, rfl, rfl, rfl, rfl⟩

/-- C9: on an initialized transport, when the transport fails with `err`,
each wrapper operation rejects with: `ApiError` carrying the server's
response body when the failure holds a response; else `NetworkError` with
the fixed message "No response from server" when the request was sent but
no response arrived; else `RequestSetupError` with "Request failed: "
followed by the original message. -/
theorem c9_error_normalization (P B : Type) (path : String) (ps : Params)
    (body : P) (err : AxiosFailure B) :
    (apiGet P B (some fun _ => .error err) path ps).1
        = .error
            (match err.response with
             | some r => .apiError r.data
             | none =>
                 if err.request then .networkError "No response from server"
                 else .requestSetupError ("Request failed: " ++ err.message))
    ∧ (apiPost P B (some fun _ => .error err) path body).1
        = .error (handleFailure err)
    ∧ (apiPut P B (some fun _ => .error err) path body).1
        = .error (handleFailure err)
    ∧ (apiDelete P B (some fun _ => .error err) path ps).1
        = .error (handleFailure err)
    ∧ (apiPostFile P B (some fun _ => .error err) path body).1
        = .error (handleFailure err) :=
  ⟨rfl, rfl, rfl, rfl, rfl⟩

/-- C10: when a paging field is present but zero, `fetchAll` applies the
absent-field fallback anyway (presence is tested by truthiness): a zero
`total_count` yields the fetched list's length, and a zero `current_page`
or `num_pages` yields 1. -/
theorem c10_zero_paging_fields (T P : Type) (e : String) (ps : Params)
    (resp : ListResp T) (s : GenericState T) :
    (resp.total_count = some 0 →
      (runTrace s (fetchAll e ps (.ok resp) : List (Ev T P))).meta.totalCount
        = ((resp.objects.getD []).length : Int))
    ∧ (resp.current_page = some 0 →
      (runTrace s (fetchAll e ps (.ok resp) : List (Ev T P))).meta.currentPage = 1)
    ∧ (resp.num_pages = some 0 →
      (runTrace s (fetchAll e ps (.ok resp) : List (Ev T P))).meta.totalPages
        = 1) := by
  refine ⟨fun h => ?_, fun h => ?_, fun h => ?_⟩ <;>
    cases hobj : resp.objects <;>
    simp [runTrace, applyPatch, fetchAll, fetchAllOkPatch, metaOf, jsOrInt,
      startPatch, h, hobj]

/-- The concrete response exercising C10's hypotheses: every paging field
present and zero, with a two-element list. -/
def respAllZero : ListResp Nat :=
  { objects := some [4, 9], current_page := some 0, num_pages := some 0
  , total_count := some 0 }

/-- Witness for C10 at a concrete input: all three hypotheses hold for
`respAllZero`, and the fallbacks apply — total count 2 (the list length),
current page 1, total pages 1. -/
theorem c10_zero_paging_fields_witness :
    (runTrace (initialState Nat)
        (fetchAll "/e" [] (.ok respAllZero) : List (Ev Nat Unit))).meta.totalCount
      = ((respAllZero.objects.getD []).length : Int)
    ∧ (runTrace (initialState Nat)
        (fetchAll "/e" [] (.ok respAllZero) : List (Ev Nat Unit))).meta.currentPage
      = 1
    ∧ (runTrace (initialState Nat)
        (fetchAll "/e" [] (.ok respAllZero) : List (Ev Nat Unit))).meta.totalPages
      = 1 :=
  ⟨(c10_zero_paging_fields Nat Unit "/e" [] respAllZero (initialState Nat)).1 rfl,
   (c10_zero_paging_fields Nat Unit "/e" [] respAllZero (initialState Nat)).2.1 rfl,
   (c10_zero_paging_fields Nat Unit "/e" [] respAllZero (initialState Nat)).2.2 rfl⟩

end ZustandApiClient
